import Mathlib

/-!
Verification of the banking-agent retry/validation core
(`src/banking_agent`): a shallow embedding of the data models
(`models.py`), the validator decision logic and the concierge retry
template (`prompt.py`), the retry loop, the escalation fallback handler
and the RAG tool (`agent.py`, `rag/retrieval.py`), with theorems about
the properties the repository documents.
-/

/-- IntentCategory from models.py: the four intent classes. -/
inductive IntentCategory where
  | greet
  | investment_related
  | general_question
  | out_of_scope
deriving DecidableEq

/-- AgentResponse from models.py: voice_str, text, send_to_ui and
follow_up_questions (a list of strings with default []). The pydantic
schema constrains only the field types; it carries no validator or
length bound on follow_up_questions. -/
structure AgentResponse where
  voice_str : String
  text : String
  send_to_ui : Bool
  follow_up_questions : List String
deriving DecidableEq

/-- ValidationResult from models.py: the validator agent's output schema.
tool_usage_check is Optional[bool] with default None; validation_mode is
Optional[str] with default None; feedback defaults to "". -/
structure ValidationResult where
  is_valid : Bool
  traceability_check : Bool
  consistency_check : Bool
  tool_usage_check : Option Bool
  validation_mode : Option String
  feedback : String
  escalate : Bool
deriving DecidableEq

/-- IntentGuardrailOutput from models.py: the intent agent's output
schema. confidence is a float in the source; it is modelled as a
rational, which no claim inspects numerically. -/
structure IntentGuardrailOutput where
  query : String
  intent : IntentCategory
  reasoning : String
  confidence : Rat
  allowed : Bool

/-- Raw (pre-validation) input to the AgentResponse schema: a field is
none when the key is absent from the payload. -/
structure RawAgentResponse where
  voice_str : Option String
  text : Option String
  send_to_ui : Option Bool
  follow_up_questions : Option (List String)

/-- Pydantic validation of AgentResponse exactly as models.py declares
it: voice_str, text and send_to_ui are required (Field(...)),
follow_up_questions falls back to the default_factory value [] when
absent. No other constraint exists in the schema: in particular no
bound on the length of follow_up_questions (the "2-4" in the field
description is prose, not a validator). -/
def AgentResponse.validate (r : RawAgentResponse) : Option AgentResponse :=
  match r.voice_str, r.text, r.send_to_ui with
  | some v, some t, some ui =>
      some { voice_str := v, text := t, send_to_ui := ui,
             follow_up_questions := r.follow_up_questions.getD [] }
  | _, _, _ => none

/-- The intent classifier's output, modelled from INTENT_AGENT_PROMPT
(prompt.py): the output-format rule says allowed is "set to false ONLY
for out_of_scope", and every example sets allowed true for the other
three intents and false for out_of_scope, matching the models.py field
description "false ONLY for OUT_OF_SCOPE intents". So allowed is
determined by the intent. -/
def classify_output (query reasoning : String) (intent : IntentCategory)
    (confidence : Rat) : IntentGuardrailOutput :=
  { query := query, intent := intent, reasoning := reasoning,
    confidence := confidence,
    allowed := decide (intent ≠ IntentCategory.out_of_scope) }

/-- The validator agent's output, modelled from VALIDATOR_INSTRUCTIONS
(prompt.py, DECISION LOGIC): is_valid and escalate are set true, with
empty feedback, exactly when traceability_check == True AND
consistency_check == True AND tool_usage_check == True; otherwise
is_valid=False, escalate=False and feedback carries the specific
issues. Note the first branch requires tool_usage_check == True, so a
None tool_usage_check never reaches the valid branch. -/
def validator_verdict (traceability consistency : Bool)
    (tool_usage : Option Bool) (mode issues : String) : ValidationResult :=
  let valid := traceability && consistency && (tool_usage == some true)
  { is_valid := valid,
    traceability_check := traceability,
    consistency_check := consistency,
    tool_usage_check := tool_usage,
    validation_mode := some mode,
    feedback := if valid then "" else issues,
    escalate := valid }

/-- The definition of is_valid that the spec states ("isValid =
traceabilityOk AND consistencyOk AND (toolUsageOk != false)"), written
from the spec's words for comparison with the source's decision logic. -/
def spec_is_valid (traceability consistency : Bool)
    (tool_usage : Option Bool) : Bool :=
  traceability && consistency && !(tool_usage == some false)

/-- One raw item of the cognee search result list (rag/retrieval.py):
either a dict (whose text / content / summary keys are each possibly
absent, with as_str modelling Python str(result)), or a non-dict value
rendered by str(). -/
inductive CogneeItem where
  | dict (text content summary : Option String) (as_str : String)
  | other (as_str : String)

/-- The outcome of the cognee.search call inside search_knowledge:
a list, a single non-list value (rendered by str()), or a raised
exception with its message. -/
inductive CogneeOutcome where
  | list (items : List CogneeItem)
  | single (as_str : String)
  | error (msg : String)

/-- One formatted entry of search_knowledge's result list: original
dicts pass through unchanged; non-dict values are wrapped as
Python's str of the constructed dict. -/
structure RagEntry where
  text : Option String
  content : Option String
  summary : Option String
  rank : Option Nat
  as_str : String

/-- Python str of the dict that search_knowledge constructs for a
non-dict result: str({"content": s, "rank": k}). -/
def py_dict_str (s : String) (k : Nat) : String :=
  "\x7b" ++ "'content': '" ++ s ++ "', 'rank': " ++ toString k ++ "\x7d"

/-- search_knowledge from rag/retrieval.py, over the outcome of the
cognee.search call: any exception in the try block yields []; a list
result is truncated to the first `limit` items, dict items kept as-is
and non-dict items wrapped as {"content": str(result), "rank": idx+1};
a non-list result is wrapped in a singleton list with rank 1. -/
def search_knowledge (backend : CogneeOutcome) (limit : Nat) : List RagEntry :=
  match backend with
  | CogneeOutcome.error _ => []
  | CogneeOutcome.single a =>
      [{ text := none, content := some a, summary := none,
         rank := some 1, as_str := py_dict_str a 1 }]
  | CogneeOutcome.list items =>
      ((items.take limit).enum).map fun p =>
        match p.2 with
        | CogneeItem.dict t c s a =>
            { text := t, content := c, summary := s, rank := none, as_str := a }
        | CogneeItem.other a =>
            { text := none, content := some a, summary := none,
              rank := some (p.1 + 1), as_str := py_dict_str a (p.1 + 1) }

/-- Python's `a or b` over an optional string: b when a is absent or
empty (falsy), a otherwise. -/
def py_or (a : Option String) (b : String) : String :=
  match a with
  | some s => if s.isEmpty then b else s
  | none => b

/-- The text-extraction chain of search_documents (agent.py):
result.get("text") or result.get("content") or result.get("summary")
or str(result). -/
def entry_text (e : RagEntry) : String :=
  py_or e.text (py_or e.content (py_or e.summary e.as_str))

/-- Session state of one turn: the temp-prefixed keys plus the
avery_response output key. A field is none when the key is absent,
mirroring the "if key not in state" guards of agent.py. -/
structure SessionState where
  retry_count : Option Nat
  validation_feedback : Option String
  is_valid : Option Bool
  last_rag_output : Option String
  rag_query : Option String
  avery_response : Option AgentResponse
deriving DecidableEq

/-- The state at the start of a turn: temp keys are cleared between
user messages, so every key is absent. -/
def fresh_state : SessionState :=
  { retry_count := none, validation_feedback := none, is_valid := none,
    last_rag_output := none, rag_query := none, avery_response := none }

/-- search_documents from agent.py, as a function of the query, the
limit, the backend outcome and the optional tool context state. It
returns the formatted string together with the updated state (the
source mutates tool_context.state when tool_context is provided). With
no results it returns the fixed no-information message and initializes
temp:retry_count if absent; with results it concatenates the non-empty
extracted texts under a header, strips the result, and additionally
initializes temp:validation_feedback and temp:is_valid if absent. -/
def search_documents (query : String) (limit : Nat) (backend : CogneeOutcome)
    (tool_context : Option SessionState) : String × Option SessionState :=
  let results := search_knowledge backend limit
  if results.isEmpty then
    let formatted := "No information found for query: '" ++ query ++ "'"
    (formatted,
     tool_context.map fun s =>
       { s with last_rag_output := some formatted,
                rag_query := some query,
                retry_count := some (s.retry_count.getD 0) })
  else
    let body := results.foldl
      (fun acc e =>
        let t := entry_text e
        if ¬ t.isEmpty ∧ ¬ t.trim.isEmpty then acc ++ t ++ "\n\n" else acc)
      ("Information about '" ++ query ++ "':\n\n")
    let formatted := body.trim
    (formatted,
     tool_context.map fun s =>
       { s with last_rag_output := some formatted,
                rag_query := some query,
                retry_count := some (s.retry_count.getD 0),
                validation_feedback := some (s.validation_feedback.getD ""),
                is_valid := some (s.is_valid.getD false) })

/-- The before_agent_callback initialize_temp_state of agent.py
(renamed: the source's name is not usable here): each temp key is set
to its default when absent, left unchanged when present. -/
def init_temp_state (s : SessionState) : SessionState :=
  { s with retry_count := some (s.retry_count.getD 0),
           validation_feedback := some (s.validation_feedback.getD ""),
           is_valid := some (s.is_valid.getD false),
           last_rag_output := some (s.last_rag_output.getD ""),
           rag_query := some (s.rag_query.getD "") }

/-- The fixed escalation response built in handle_validation_failure
(agent.py). -/
def fallback_response : AgentResponse :=
  { voice_str := "I need to connect you with a specialist for this question.",
    text := "I apologize, but I need to escalate your question to ensure you receive accurate information. A specialist will assist you shortly.",
    send_to_ui := true,
    follow_up_questions := [] }

/-- handle_validation_failure from agent.py, the after_agent_callback of
the loop agent: reads temp:is_valid (default False) and
temp:retry_count (default 0); returns None (no override) when the
verdict is true or the retry count is 0, and the fixed fallback
response otherwise. -/
def handle_validation_failure (s : SessionState) : Option AgentResponse :=
  if s.is_valid.getD false = true ∨ s.retry_count.getD 0 = 0 then none
  else some fallback_response

/-- The per-turn behaviour of the generator, the tool and the validator,
abstracted as oracles indexed by the loop iteration: responses i is the
AgentResponse the concierge produces at iteration i, tool_call i is its
optional search_documents call (query, limit, backend outcome), and
verdicts i is the validator's output at iteration i. -/
structure TurnOracle where
  responses : Nat → AgentResponse
  tool_call : Nat → Option (String × Nat × CogneeOutcome)
  verdicts : Nat → ValidationResult

/-- One execution of avery_agent at iteration i: the
before-agent callback runs, then the optional search_documents tool
call updates the state, then the response is saved under the
avery_response output key. -/
def avery_step (o : TurnOracle) (i : Nat) (s : SessionState) : SessionState :=
  let s1 := init_temp_state s
  let s2 := match o.tool_call i with
    | none => s1
    | some (q, limit, b) => ((search_documents q limit b (some s1)).2).getD s1
  { s2 with avery_response := some (o.responses i) }

/-- The observable result of the avery_with_validation loop: the final
session state, the number of generation attempts performed, whether a
verdict with escalate=true ended the loop early, and the last verdict
produced. -/
structure LoopResult where
  state : SessionState
  attempts : Nat
  exited_early : Bool
  last_verdict : Option ValidationResult

/-- The LoopAgent avery_with_validation (agent.py): each iteration runs
avery_agent then validator_agent; the loop ends when a verdict carries
escalate = true (the documented exit condition) or when the iteration
budget is exhausted. The validator writes nothing to the session state:
validator_agent is declared without an output key. -/
def run_loop (o : TurnOracle) : Nat → Nat → SessionState → LoopResult
  | _, 0, s => { state := s, attempts := 0, exited_early := false, last_verdict := none }
  | i, fuel + 1, s =>
    let s1 := avery_step o i s
    let v := o.verdicts i
    if v.escalate then
      { state := s1, attempts := 1, exited_early := true, last_verdict := some v }
    else
      let r := run_loop o (i + 1) fuel s1
      { state := r.state, attempts := r.attempts + 1,
        exited_early := r.exited_early,
        last_verdict := match r.last_verdict with
          | some w => some w
          | none => some v }

/-- max_iterations of the LoopAgent avery_with_validation: the literal
constant 3 in agent.py, not a per-request value. -/
def avery_with_validation_max_iterations : Nat := 3

/-- One full run of avery_with_validation from a given initial state. -/
def run_turn (o : TurnOracle) (s : SessionState) : LoopResult :=
  run_loop o 0 avery_with_validation_max_iterations s

/-- The turn's final output: the after_agent_callback
handle_validation_failure may replace the surfaced content; otherwise
the avery_response saved in state is surfaced. -/
def turn_output (o : TurnOracle) (s : SessionState) : Option AgentResponse :=
  match handle_validation_failure (run_turn o s).state with
  | some fb => some fb
  | none => (run_turn o s).state.avery_response

/-- The retry-relevant part of the concierge generation context,
modelled from the CONCIERGE_INSTRUCTIONS template (prompt.py): the
validation-feedback block renders exactly when temp:retry_count > 0,
and inside it temp:validation_feedback is substituted verbatim. -/
structure ConciergeContext where
  retry_count : Nat
  feedback_block : Option String

/-- Rendering of the concierge instruction template against a state. -/
def concierge_context (s : SessionState) : ConciergeContext :=
  let rc := s.retry_count.getD 0
  { retry_count := rc,
    feedback_block :=
      if rc > 0 then some (s.validation_feedback.getD "") else none }

/-- The session state reached just before iteration k of the loop
(ignoring early exit: defined for every k the loop could reach). -/
def state_before (o : TurnOracle) (s0 : SessionState) : Nat → SessionState
  | 0 => s0
  | k + 1 => avery_step o k (state_before o s0 k)

/-- The concierge generation context rendered for attempt k (0-based):
the before-agent callback has run on the state the loop carries into
iteration k. -/
def gen_context_at (o : TurnOracle) (s0 : SessionState) (k : Nat) : ConciergeContext :=
  concierge_context (init_temp_state (state_before o s0 k))

/-- A turn in which every attempt fails validation: every verdict has
escalate = false (a concrete failing scenario for the exhaustion
path), with a fixed draft response and no tool call. -/
def always_invalid_oracle : TurnOracle :=
  { responses := fun _ =>
      { voice_str := "Draft voice answer.", text := "Draft text answer.",
        send_to_ui := false, follow_up_questions := [] },
    tool_call := fun _ => none,
    verdicts := fun _ =>
      validator_verdict false true (some true) "investment_related_question"
        "voice_str cites a figure that is not present in the RAG output" }

theorem avery_step_retry_count (o : TurnOracle) (i : Nat) (s : SessionState) :
    (avery_step o i s).retry_count = some (s.retry_count.getD 0) := by
  unfold avery_step
  cases h : o.tool_call i with
  | none => simp [init_temp_state]
  | some t =>
    obtain ⟨q, limit, b⟩ := t
    simp only [search_documents]
    split <;> simp [init_temp_state]

theorem avery_step_validation_feedback (o : TurnOracle) (i : Nat) (s : SessionState) :
    (avery_step o i s).validation_feedback = some (s.validation_feedback.getD "") := by
  unfold avery_step
  cases h : o.tool_call i with
  | none => simp [init_temp_state]
  | some t =>
    obtain ⟨q, limit, b⟩ := t
    simp only [search_documents]
    split <;> simp [init_temp_state]

theorem avery_step_is_valid (o : TurnOracle) (i : Nat) (s : SessionState) :
    (avery_step o i s).is_valid = some (s.is_valid.getD false) := by
  unfold avery_step
  cases h : o.tool_call i with
  | none => simp [init_temp_state]
  | some t =>
    obtain ⟨q, limit, b⟩ := t
    simp only [search_documents]
    split <;> simp [init_temp_state]

theorem avery_step_response (o : TurnOracle) (i : Nat) (s : SessionState) :
    (avery_step o i s).avery_response = some (o.responses i) := rfl

theorem run_loop_attempts_le (o : TurnOracle) :
    ∀ (fuel i : Nat) (s : SessionState), (run_loop o i fuel s).attempts ≤ fuel
  | 0, _, _ => Nat.le_refl 0
  | fuel + 1, i, s => by
    simp only [run_loop]
    split
    · exact Nat.succ_le_succ (Nat.zero_le fuel)
    · exact Nat.succ_le_succ (run_loop_attempts_le o fuel (i + 1) _)

theorem run_loop_exit_verdict (o : TurnOracle) :
    ∀ (fuel i : Nat) (s : SessionState),
      (run_loop o i fuel s).exited_early = true →
      ∃ j, (run_loop o i fuel s).last_verdict = some (o.verdicts j) ∧
        (o.verdicts j).escalate = true
  | 0, _, _ => by simp [run_loop]
  | fuel + 1, i, s => by
    simp only [run_loop]
    split
    · rename_i hesc
      intro _
      exact ⟨i, rfl, hesc⟩
    · intro h
      obtain ⟨j, hj, hesc⟩ := run_loop_exit_verdict o fuel (i + 1) _ h
      exact ⟨j, by simp [hj], hesc⟩

/-- C1 (code evaluated at the failing scenario): when every validation
attempt fails (all three verdicts have escalate = false), the turn's
output is the third generated response, NOT the escalation fallback:
the after-agent callback returns no override because temp:retry_count
is never incremented anywhere (it stays 0) and temp:is_valid is never
written by the validator (it has no output key), so the claimed
exhaustion behaviour never occurs. -/
theorem exhausted_turn_emits_last_response (o : TurnOracle)
    (h : ∀ i, (o.verdicts i).escalate = false) :
    turn_output o fresh_state = some (o.responses 2) ∧
    handle_validation_failure (run_turn o fresh_state).state = none ∧
    (run_turn o fresh_state).attempts = 3 := by
  have hrun : (run_turn o fresh_state).state =
      avery_step o 2 (avery_step o 1 (avery_step o 0 fresh_state)) := by
    simp [run_turn, avery_with_validation_max_iterations, run_loop, h 0, h 1, h 2]
  have r0 : (avery_step o 0 fresh_state).retry_count = some 0 := by
    rw [avery_step_retry_count]; rfl
  have r1 : (avery_step o 1 (avery_step o 0 fresh_state)).retry_count = some 0 := by
    rw [avery_step_retry_count, r0]; rfl
  have r2 : (avery_step o 2 (avery_step o 1 (avery_step o 0 fresh_state))).retry_count
      = some 0 := by
    rw [avery_step_retry_count, r1]; rfl
  have hnone : handle_validation_failure (run_turn o fresh_state).state = none := by
    rw [hrun]
    unfold handle_validation_failure
    rw [r2]
    simp
  have hatt : (run_turn o fresh_state).attempts = 3 := by
    simp [run_turn, avery_with_validation_max_iterations, run_loop, h 0, h 1, h 2]
  refine ⟨?_, hnone, hatt⟩
  simp only [turn_output, hnone]
  rw [hrun, avery_step_response]

/-- C1 witness: the concrete always-failing turn ends with the draft
response, which differs from the fixed fallback response. -/
theorem exhausted_turn_emits_last_response_witness :
    turn_output always_invalid_oracle fresh_state =
      some { voice_str := "Draft voice answer.", text := "Draft text answer.",
             send_to_ui := false, follow_up_questions := [] } ∧
    ({ voice_str := "Draft voice answer.", text := "Draft text answer.",
       send_to_ui := false, follow_up_questions := [] } : AgentResponse)
      ≠ fallback_response := by
  refine ⟨(exhausted_turn_emits_last_response always_invalid_oracle ?_).1, by decide⟩
  intro i
  rfl

/-- C2 counterexample: with traceability_check and consistency_check
true and tool_usage_check None (not false), the decision logic of
VALIDATOR_INSTRUCTIONS yields is_valid = false, so a null
tool_usage_check does not permit is_valid = true as the claim states. -/
theorem validator_null_tool_usage_counterexample :
    (validator_verdict true true none "general_question"
      "tool usage requirement not applicable").is_valid = false ∧
    spec_is_valid true true none = true := by
  exact ⟨by decide, by decide⟩

/-- C2 (amended): a ValidationResult produced by the decision logic of
VALIDATOR_INSTRUCTIONS has is_valid = true exactly when
traceability_check, consistency_check and tool_usage_check are all
true; in particular a null (not-applicable) tool_usage_check makes
is_valid false. -/
theorem validator_is_valid_iff_all_checks_true (t c : Bool) (u : Option Bool)
    (m f : String) :
    (validator_verdict t c u m f).is_valid = true ↔
      (validator_verdict t c u m f).traceability_check = true ∧
      (validator_verdict t c u m f).consistency_check = true ∧
      (validator_verdict t c u m f).tool_usage_check = some true := by
  cases u with
  | none => simp [validator_verdict]
  | some b => cases b <;> cases t <;> cases c <;> simp [validator_verdict]

/-- C3: the retry controller performs at most 3 generation attempts per
turn, for every oracle and every initial state; max_iterations is the
fixed constant 3 and the fuel-bounded loop always terminates within it. -/
theorem generation_attempts_at_most_three :
    avery_with_validation_max_iterations = 3 ∧
    ∀ (o : TurnOracle) (s : SessionState),
      (run_turn o s).attempts ≤ avery_with_validation_max_iterations := by
  refine ⟨rfl, fun o s => ?_⟩
  exact run_loop_attempts_le o avery_with_validation_max_iterations 0 s

/-- C4 (code evaluated at the failing scenario): the concierge context
rendered for every attempt of a turn carries no feedback block at all
- temp:retry_count is never incremented, so the template conditional
never fires, and the validator (having no output key) never writes
temp:validation_feedback - although the template would inject the
stored feedback verbatim whenever the retry count were positive. -/
theorem retry_context_carries_no_feedback (o : TurnOracle) :
    (∀ k, (gen_context_at o fresh_state k).feedback_block = none) ∧
    (∀ s : SessionState, 0 < s.retry_count.getD 0 →
      (concierge_context s).feedback_block = some (s.validation_feedback.getD "")) := by
  constructor
  · have hrc : ∀ k, (state_before o fresh_state k).retry_count.getD 0 = 0 := by
      intro k
      induction k with
      | zero => rfl
      | succ n ih =>
        rw [state_before, avery_step_retry_count, ih]
        rfl
    intro k
    unfold gen_context_at concierge_context
    simp [init_temp_state, hrc k]
  · intro s hs
    simp [concierge_context, hs]

/-- C5: an IntentGuardrailOutput produced by the intent classifier has
allowed = false exactly when the intent is out_of_scope; every other
intent yields allowed = true. -/
theorem intent_allowed_iff_not_out_of_scope (q r : String) (i : IntentCategory)
    (conf : Rat) :
    ((classify_output q r i conf).allowed = false ↔
      (classify_output q r i conf).intent = IntentCategory.out_of_scope) ∧
    ((classify_output q r i conf).intent ≠ IntentCategory.out_of_scope →
      (classify_output q r i conf).allowed = true) := by
  cases i <;> simp [classify_output]

/-- C6: escalate equals is_valid on every ValidationResult the decision
logic produces (there is no independent exit condition), and every
early exit of the loop driven by such verdicts is a successful exit:
its last verdict has escalate = true and is_valid = true. -/
theorem escalate_equals_is_valid :
    (∀ (t c : Bool) (u : Option Bool) (m f : String),
      (validator_verdict t c u m f).escalate = (validator_verdict t c u m f).is_valid) ∧
    (∀ (o : TurnOracle) (s : SessionState),
      (∀ i, ∃ t c u m f, o.verdicts i = validator_verdict t c u m f) →
      (run_turn o s).exited_early = true →
      ∃ v, (run_turn o s).last_verdict = some v ∧
        v.escalate = true ∧ v.is_valid = true) := by
  constructor
  · intro t c u m f
    rfl
  · intro o s hform hexit
    obtain ⟨j, hj, hesc⟩ :=
      run_loop_exit_verdict o avery_with_validation_max_iterations 0 s hexit
    refine ⟨o.verdicts j, hj, hesc, ?_⟩
    obtain ⟨t, c, u, m, f, hv⟩ := hform j
    rw [hv] at hesc ⊢
    exact hesc

/-- C6 witness: a concrete turn whose validator output comes from the
decision logic with all checks true exits early, and its last verdict
has escalate = true and is_valid = true. -/
theorem escalate_equals_is_valid_witness :
    ∃ v, (run_turn
        { responses := fun _ =>
            { voice_str := "Hello.", text := "", send_to_ui := false,
              follow_up_questions := [] },
          tool_call := fun _ => none,
          verdicts := fun _ => validator_verdict true true (some true) "greet" "" }
        fresh_state).last_verdict = some v ∧
      v.escalate = true ∧ v.is_valid = true := by
  refine escalate_equals_is_valid.2 _ fresh_state ?_ ?_
  · intro i
    exact ⟨true, true, some true, "greet", "", rfl⟩
  · rfl

/-- C7 counterexample: the AgentResponse schema accepts a payload whose
follow_up_questions list has 5 items, violating the claimed 0-4 bound. -/
theorem follow_up_bound_counterexample :
    AgentResponse.validate
      { voice_str := some "v", text := some "t", send_to_ui := some true,
        follow_up_questions := some ["a", "b", "c", "d", "e"] } =
      some { voice_str := "v", text := "t", send_to_ui := true,
             follow_up_questions := ["a", "b", "c", "d", "e"] } ∧
    ¬ (List.length ["a", "b", "c", "d", "e"] ≤ 4) := by
  exact ⟨rfl, by decide⟩

/-- C7 (amended): follow_up_questions is a list of strings on which the
response schema enforces no length bound: for every n there is an
accepted AgentResponse whose follow_up_questions has exactly n items
(the 2-4 wording of the field description is guidance only). -/
theorem schema_accepts_any_follow_up_count (n : Nat) :
    ∃ (raw : RawAgentResponse) (resp : AgentResponse),
      AgentResponse.validate raw = some resp ∧
      resp.follow_up_questions.length = n := by
  refine ⟨{ voice_str := some "v", text := some "t", send_to_ui := some true,
            follow_up_questions := some (List.replicate n "q") },
          { voice_str := "v", text := "t", send_to_ui := true,
            follow_up_questions := List.replicate n "q" }, rfl, ?_⟩
  simp

/-- C8: a retriever failure (the backend search raising) is not
propagated: search_knowledge returns the empty list, and
search_documents formats the empty result list as the fixed
no-information message - a normal string return, not an error. -/
theorem retriever_failure_yields_no_info (q msg : String) (limit : Nat)
    (tc : Option SessionState) :
    search_knowledge (CogneeOutcome.error msg) limit = [] ∧
    (search_documents q limit (CogneeOutcome.error msg) tc).1 =
      "No information found for query: '" ++ q ++ "'" := by
  exact ⟨rfl, by simp [search_documents, search_knowledge]⟩

/-- C9: handle_validation_failure leaves the turn's output unchanged
(returns none) whenever the recorded retry count is 0 or the recorded
verdict is true, and replaces it with the fixed fallback exactly when
the retry count is positive and the verdict is false. -/
theorem fallback_only_when_retried_and_invalid (s : SessionState) :
    ((s.retry_count.getD 0 = 0 ∨ s.is_valid.getD false = true) →
      handle_validation_failure s = none) ∧
    ((0 < s.retry_count.getD 0 ∧ s.is_valid.getD false = false) →
      handle_validation_failure s = some fallback_response) := by
  unfold handle_validation_failure
  constructor
  · intro h
    rw [if_pos]
    exact h.elim (fun h0 => Or.inr h0) (fun h1 => Or.inl h1)
  · rintro ⟨h1, h2⟩
    rw [if_neg]
    rintro (hv | hr)
    · rw [h2] at hv
      exact Bool.false_ne_true hv
    · omega

/-- C10: search_knowledge returns at most `limit` results when the
backend returns a list, and exactly one result when the backend
returns a non-list value. -/
theorem search_knowledge_result_count (items : List CogneeItem) (limit : Nat)
    (a : String) :
    (search_knowledge (CogneeOutcome.list items) limit).length ≤ limit ∧
    (search_knowledge (CogneeOutcome.single a) limit).length = 1 := by
  constructor
  · simp only [search_knowledge, List.length_map, List.enum_length, List.length_take]
    omega
  · rfl
